import Mathlib

/-!
Verification development for the raylib example
`examples/shaders/shaders_hybrid_render.c` (hybrid raymarch/raster rendering
with a writable depth texture).

The example's own functions (`LoadRenderTextureDepthTex`,
`UnloadRenderTextureDepthTex`, the per-frame loop body of `main`) are embedded
as pure Lean functions.  The GPU abstraction layer (`rlgl`) is external to the
example file; it is modelled as an abstract allocator (`Gpu`) together with an
explicit trace of the side-effecting GPU calls the example issues
(`GpuEvent`).  Floating-point arithmetic of the camera math is modelled over
the reals.
-/

namespace HybridRender

/-- Log levels used by the example's TRACELOG calls. -/
inductive LogLevel where
  | info
  | warning
deriving DecidableEq, Repr

/-- Modelled from the spec: the GPU abstraction layer's side-effecting calls
(framebuffer enable/disable, texture allocation, attachment, completeness
check, logging, teardown), recorded as an explicit event trace. -/
inductive GpuEvent where
  | enableFramebuffer (fbId : Nat)
  | loadTexture (width height pixelFormat mipmapCount : Int)
  | loadTextureDepth (width height : Int) (useRenderBuffer : Bool)
  | framebufferAttach (fbId texId attachType texType : Nat) (mipLevel : Nat)
  | framebufferCompleteCheck (fbId : Nat)
  | disableFramebuffer
  | traceLog (level : LogLevel)
  | unloadTexture (texId : Nat)
  | unloadFramebuffer (fbId : Nat)
deriving DecidableEq, Repr

/-- Modelled from the spec: the GPU abstraction layer's allocation primitives
(`rlLoadFramebuffer`, `rlLoadTexture`, `rlLoadTextureDepth`,
`rlFramebufferComplete` are external to the example file).  Each allocator
returns a handle; a zero framebuffer handle means allocation failed. -/
structure Gpu where
  loadFramebuffer : Int → Int → Nat
  loadTexture : Int → Int → Int → Int → Nat
  loadTextureDepth : Int → Int → Bool → Nat
  framebufferComplete : Nat → Bool

/-- Modelled from the spec: raylib's `Texture` record
(id, width, height, mipmaps, pixel format). -/
structure Texture where
  id : Nat
  width : Int
  height : Int
  mipmaps : Int
  format : Int
deriving DecidableEq, Repr

/-- Modelled from the spec: raylib's `RenderTexture2D` record
(framebuffer handle, color texture, depth texture). -/
structure RenderTexture2D where
  id : Nat
  texture : Texture
  depth : Texture
deriving DecidableEq, Repr

/-- Modelled from the spec: raylib's standard 8-bit-per-channel RGBA pixel
format constant. -/
def PIXELFORMAT_UNCOMPRESSED_R8G8B8A8 : Int := 7

/-- Modelled from the spec: rlgl's color-channel-0 framebuffer slot. -/
def RL_ATTACHMENT_COLOR_CHANNEL0 : Nat := 0

/-- Modelled from the spec: rlgl's depth framebuffer slot. -/
def RL_ATTACHMENT_DEPTH : Nat := 100

/-- Modelled from the spec: rlgl's texture2d attachment kind. -/
def RL_ATTACHMENT_TEXTURE2D : Nat := 100

/-- `LoadRenderTextureDepthTex` from the example: allocates a framebuffer and,
when the handle is nonzero, a color texture (RGBA8, one mip level) and a depth
texture (not a renderbuffer, one mip level), attaches both, checks
completeness, and returns the populated target; on a zero handle it logs a
warning and returns the zero-initialized target.  Returns the target together
with the trace of GPU calls performed. -/
def LoadRenderTextureDepthTex (gpu : Gpu) (width height : Int) :
    RenderTexture2D × List GpuEvent :=
  let fbId := gpu.loadFramebuffer width height
  if 0 < fbId then
    let colorId := gpu.loadTexture width height PIXELFORMAT_UNCOMPRESSED_R8G8B8A8 1
    let depthId := gpu.loadTextureDepth width height false
    let target : RenderTexture2D :=
      { id := fbId
        texture :=
          { id := colorId, width := width, height := height,
            mipmaps := 1, format := PIXELFORMAT_UNCOMPRESSED_R8G8B8A8 }
        depth :=
          { id := depthId, width := width, height := height,
            mipmaps := 1, format := 19 } }
    (target,
      [GpuEvent.enableFramebuffer fbId,
       GpuEvent.loadTexture width height PIXELFORMAT_UNCOMPRESSED_R8G8B8A8 1,
       GpuEvent.loadTextureDepth width height false,
       GpuEvent.framebufferAttach fbId colorId RL_ATTACHMENT_COLOR_CHANNEL0
         RL_ATTACHMENT_TEXTURE2D 0,
       GpuEvent.framebufferAttach fbId depthId RL_ATTACHMENT_DEPTH
         RL_ATTACHMENT_TEXTURE2D 0,
       GpuEvent.framebufferCompleteCheck fbId]
      ++ (if gpu.framebufferComplete fbId then [GpuEvent.traceLog LogLevel.info]
          else [])
      ++ [GpuEvent.disableFramebuffer])
  else
    ({ id := fbId
       texture := { id := 0, width := 0, height := 0, mipmaps := 0, format := 0 }
       depth := { id := 0, width := 0, height := 0, mipmaps := 0, format := 0 } },
     [GpuEvent.traceLog LogLevel.warning])

/-- `UnloadRenderTextureDepthTex` from the example: when the framebuffer
handle is nonzero, releases the color texture, the depth texture, then the
framebuffer; otherwise does nothing.  Returns the trace of GPU calls. -/
def UnloadRenderTextureDepthTex (target : RenderTexture2D) : List GpuEvent :=
  if 0 < target.id then
    [GpuEvent.unloadTexture target.texture.id,
     GpuEvent.unloadTexture target.depth.id,
     GpuEvent.unloadFramebuffer target.id]
  else []

/-- A concrete GPU model that always succeeds, used to exercise the
definitions on concrete inputs. -/
def testGpu : Gpu where
  loadFramebuffer := fun _ _ => 1
  loadTexture := fun _ _ _ _ => 2
  loadTextureDepth := fun _ _ _ => 3
  framebufferComplete := fun _ => true

/-- A concrete GPU model whose framebuffer allocation always fails. -/
def failGpu : Gpu where
  loadFramebuffer := fun _ _ => 0
  loadTexture := fun _ _ _ _ => 2
  loadTextureDepth := fun _ _ _ => 3
  framebufferComplete := fun _ => false

/-- Modelled from the spec: raymath's 3-component vector, over the reals. -/
@[ext]
structure Vector3 where
  x : ℝ
  y : ℝ
  z : ℝ

/-- Modelled from the spec: raymath's `Vector3Subtract`, componentwise. -/
def Vector3Subtract (a b : Vector3) : Vector3 :=
  ⟨a.x - b.x, a.y - b.y, a.z - b.z⟩

/-- Modelled from the spec: raymath's `Vector3Scale`, each component times the
scalar. -/
def Vector3Scale (v : Vector3) (scalar : ℝ) : Vector3 :=
  ⟨v.x * scalar, v.y * scalar, v.z * scalar⟩

/-- Modelled from the spec: the Euclidean magnitude of a vector
(raymath's `Vector3Length`). -/
noncomputable def Vector3Length (v : Vector3) : ℝ :=
  Real.sqrt (v.x * v.x + v.y * v.y + v.z * v.z)

/-- Modelled from the spec: raymath's `Vector3Normalize` — the vector divided
by its magnitude (a zero-magnitude input is left unscaled, via the library's
length-zero guard). -/
noncomputable def Vector3Normalize (v : Vector3) : Vector3 :=
  let len := Vector3Length v
  let lenSafe := if len = 0 then 1 else len
  ⟨v.x * (1 / lenSafe), v.y * (1 / lenSafe), v.z * (1 / lenSafe)⟩

/-- Modelled from the spec: raylib's degrees-to-radians factor `DEG2RAD`. -/
noncomputable def DEG2RAD : ℝ := Real.pi / 180

/-- Modelled from the spec: raylib's perspective projection kind. -/
def CAMERA_PERSPECTIVE : Int := 0

/-- Modelled from the spec: raylib's `Camera` record (position, target, up,
vertical field of view, projection kind). -/
structure Camera where
  position : Vector3
  target : Vector3
  up : Vector3
  fovy : ℝ
  projection : Int

/-- The camera defined at the start of `main`: position (0.5, 1.0, 1.5),
target (0, 0.5, 0), up (0, 1, 0), fovy 45 degrees, perspective projection. -/
noncomputable def initialCamera : Camera :=
  { position := ⟨0.5, 1.0, 1.5⟩
    target := ⟨0.0, 0.5, 0.0⟩
    up := ⟨0.0, 1.0, 0.0⟩
    fovy := 45.0
    projection := CAMERA_PERSPECTIVE }

/-- The derived camera-distance scalar from `main`:
`camDist = 1.0/(tan(camera.fovy*0.5*DEG2RAD))`, computed once before the
frame loop. -/
noncomputable def camDist : ℝ := 1.0 / Real.tan (initialCamera.fovy * 0.5 * DEG2RAD)

/-- The spec's formula for the camera distance:
`camDist = 1 / tan(fovy_radians / 2)` where `fovy_radians = fovy * DEG2RAD`. -/
noncomputable def camDistSpec (fovy : ℝ) : ℝ := 1 / Real.tan (fovy * DEG2RAD / 2)

/-- The code's camera-distance computation as a function of the field of
view, as written on line 87 of the example. -/
noncomputable def camDistOf (fovy : ℝ) : ℝ := 1.0 / Real.tan (fovy * 0.5 * DEG2RAD)

/-- The per-frame looking vector from the loop body:
`Vector3Scale(Vector3Normalize(Vector3Subtract(camera.target,
camera.position)), camDist)`. -/
noncomputable def frameCamDir (camera : Camera) (dist : ℝ) : Vector3 :=
  Vector3Scale (Vector3Normalize (Vector3Subtract camera.target camera.position)) dist

/-- The `RayLocs` struct of the example: resolved uniform locations of the
raymarch shader. -/
structure RayLocs where
  camPos : Nat
  camDir : Nat
  screenCenter : Nat
deriving DecidableEq, Repr

/-- Modelled from the spec: a rectangle (raylib's `Rectangle`). -/
structure Rectangle where
  x : ℝ
  y : ℝ
  width : ℝ
  height : ℝ

/-- `screenWidth` constant from `main`. -/
def screenWidth : Int := 800

/-- `screenHeight` constant from `main`. -/
def screenHeight : Int := 450

/-- The uniform uploads a frame performs: `camPos` gets the camera position,
`camDir` gets the scaled looking vector, each at its resolved location. -/
structure FrameUploads where
  camPosLoc : Nat
  camPosVal : Vector3
  camDirLoc : Nat
  camDirVal : Vector3

/-- The observable per-frame outputs: the uniform uploads and the source
rectangle used to blit the offscreen color texture to the window. -/
structure FrameOutput where
  uploads : FrameUploads
  blitRect : Rectangle

/-- The state carried across iterations of the main loop: the camera, the
derived camera-distance scalar, and the resolved uniform-location table. -/
structure MainState where
  camera : Camera
  camDist : ℝ
  march_locs : RayLocs

/-- The state of `main` just before the frame loop: initial camera, the
camera distance computed once from the field of view, and the uniform
locations resolved once against the raymarch shader (`loc` models
`GetShaderLocation raymarch_shader`). -/
noncomputable def initMainState (loc : String → Nat) : MainState :=
  { camera := initialCamera
    camDist := camDist
    march_locs :=
      { camPos := loc "camPos"
        camDir := loc "camDir"
        screenCenter := loc "screenCenter" } }

/-- One iteration of the main loop: update the camera (`upd` models the
external `UpdateCamera` collaborator), upload `camera.position` to the
`camPos` location and the scaled looking vector to the `camDir` location,
draw, and blit the offscreen texture with source rectangle
`(0, 0, screenWidth, -screenHeight)`. -/
noncomputable def frameStep (upd : Camera → Camera) (s : MainState) :
    MainState × FrameOutput :=
  let camera := upd s.camera
  ({ s with camera := camera },
   { uploads :=
       { camPosLoc := s.march_locs.camPos
         camPosVal := camera.position
         camDirLoc := s.march_locs.camDir
         camDirVal := frameCamDir camera s.camDist }
     blitRect :=
       { x := 0, y := 0, width := (screenWidth : ℝ), height := -(screenHeight : ℝ) } })

/-- Running the main loop over a list of per-frame camera updates. -/
noncomputable def runFrames (upds : List (Camera → Camera)) (s : MainState) : MainState :=
  upds.foldl (fun st u => (frameStep u st).1) s

/-- A nonzero vector has positive magnitude. -/
lemma length_pos_of_ne_zero {v : Vector3} (h : v ≠ ⟨0, 0, 0⟩) :
    0 < Vector3Length v := by
  have hs : 0 < v.x * v.x + v.y * v.y + v.z * v.z := by
    by_contra hns
    push_neg at hns
    have hx2 : v.x * v.x = 0 :=
      le_antisymm (by nlinarith [mul_self_nonneg v.y, mul_self_nonneg v.z])
        (mul_self_nonneg v.x)
    have hy2 : v.y * v.y = 0 :=
      le_antisymm (by nlinarith [mul_self_nonneg v.x, mul_self_nonneg v.z])
        (mul_self_nonneg v.y)
    have hz2 : v.z * v.z = 0 :=
      le_antisymm (by nlinarith [mul_self_nonneg v.x, mul_self_nonneg v.y])
        (mul_self_nonneg v.z)
    exact h (by ext <;>
      simp [mul_self_eq_zero.mp hx2, mul_self_eq_zero.mp hy2, mul_self_eq_zero.mp hz2])
  unfold Vector3Length
  exact Real.sqrt_pos.mpr hs

/-- Subtracting distinct vectors gives a nonzero vector. -/
lemma vector3Subtract_ne_zero {t p : Vector3} (h : t ≠ p) :
    Vector3Subtract t p ≠ ⟨0, 0, 0⟩ := by
  intro hzero
  apply h
  have hx := congrArg Vector3.x hzero
  have hy := congrArg Vector3.y hzero
  have hz := congrArg Vector3.z hzero
  simp only [Vector3Subtract] at hx hy hz
  ext <;> [skip; skip; skip] <;> dsimp at * <;> linarith

/-- Algebraic core of the magnitude computation: the magnitude of a vector
with components scaled by `d` over its own length `l` is `d`. -/
lemma sqrt_scaled_components (a b c d l : ℝ) (hl : 0 < l)
    (hll : l * l = a * a + b * b + c * c) (hd : 0 ≤ d) :
    Real.sqrt (a * (1 / l) * d * (a * (1 / l) * d) +
      b * (1 / l) * d * (b * (1 / l) * d) +
      c * (1 / l) * d * (c * (1 / l) * d)) = d := by
  have hlne : l ≠ 0 := ne_of_gt hl
  have h : a * (1 / l) * d * (a * (1 / l) * d) +
      b * (1 / l) * d * (b * (1 / l) * d) +
      c * (1 / l) * d * (c * (1 / l) * d) = d * d := by
    have hexp : a * (1 / l) * d * (a * (1 / l) * d) +
        b * (1 / l) * d * (b * (1 / l) * d) +
        c * (1 / l) * d * (c * (1 / l) * d) =
        (a * a + b * b + c * c) * ((d / l) * (d / l)) := by ring
    rw [hexp, ← hll]
    field_simp
  rw [h, Real.sqrt_mul_self hd]

/-- Normalizing a nonzero vector and scaling by a nonnegative scalar yields a
vector whose magnitude is exactly that scalar. -/
lemma vector3Length_scale_normalize {v : Vector3} {d : ℝ}
    (hv : v ≠ ⟨0, 0, 0⟩) (hd : 0 ≤ d) :
    Vector3Length (Vector3Scale (Vector3Normalize v) d) = d := by
  have hl : 0 < Vector3Length v := length_pos_of_ne_zero hv
  have hnn : 0 ≤ v.x * v.x + v.y * v.y + v.z * v.z := by
    nlinarith [mul_self_nonneg v.x, mul_self_nonneg v.y, mul_self_nonneg v.z]
  have hl' : 0 < Real.sqrt (v.x * v.x + v.y * v.y + v.z * v.z) := by
    unfold Vector3Length at hl
    exact hl
  have hlne' : Real.sqrt (v.x * v.x + v.y * v.y + v.z * v.z) ≠ 0 := ne_of_gt hl'
  have hll : Real.sqrt (v.x * v.x + v.y * v.y + v.z * v.z) *
      Real.sqrt (v.x * v.x + v.y * v.y + v.z * v.z) =
      v.x * v.x + v.y * v.y + v.z * v.z := Real.mul_self_sqrt hnn
  simp only [Vector3Normalize, Vector3Scale, Vector3Length]
  rw [if_neg hlne']
  exact sqrt_scaled_components v.x v.y v.z d _ hl' hll hd

/-- Scaling a normalized nonzero vector by a positive scalar is the same as
scaling the vector itself by some positive scalar. -/
lemma scale_normalize_eq_scale {v : Vector3} {d : ℝ}
    (hv : v ≠ ⟨0, 0, 0⟩) (hd : 0 < d) :
    ∃ t : ℝ, 0 < t ∧ Vector3Scale (Vector3Normalize v) d = Vector3Scale v t := by
  have hl : 0 < Vector3Length v := length_pos_of_ne_zero hv
  have hlne : Vector3Length v ≠ 0 := ne_of_gt hl
  refine ⟨1 / Vector3Length v * d, by positivity, ?_⟩
  have hnorm : Vector3Normalize v =
      ⟨v.x * (1 / Vector3Length v), v.y * (1 / Vector3Length v),
       v.z * (1 / Vector3Length v)⟩ := by
    unfold Vector3Normalize
    simp only [hlne, if_false]
  rw [hnorm]
  unfold Vector3Scale
  ext <;> dsimp only <;> ring

/-- Lower numeric bound on the square root of two. -/
lemma sqrt_two_gt : (1.4132 : ℝ) < Real.sqrt 2 := by
  have h2 : Real.sqrt 2 ^ 2 = 2 := Real.sq_sqrt (by norm_num)
  nlinarith [Real.sqrt_nonneg 2]

/-- Upper numeric bound on the square root of two. -/
lemma sqrt_two_lt : Real.sqrt 2 < 1.4152 := by
  have h2 : Real.sqrt 2 ^ 2 = 2 := Real.sq_sqrt (by norm_num)
  nlinarith [Real.sqrt_nonneg 2]

/-- The angle fed to `tan` in the camera-distance computation is pi over 8. -/
lemma tan_arg_eq : initialCamera.fovy * 0.5 * DEG2RAD = Real.pi / 8 := by
  simp only [initialCamera, DEG2RAD]
  ring_nf

/-- Exact value of the camera-distance scalar: one plus the square root of
two. -/
lemma camDist_eq : camDist = 1 + Real.sqrt 2 := by
  have hlt2 : Real.sqrt 2 < 2 := lt_trans sqrt_two_lt (by norm_num)
  have hpos : (0 : ℝ) < 2 - Real.sqrt 2 := by linarith
  have hbpos : 0 < Real.sqrt (2 - Real.sqrt 2) := Real.sqrt_pos.mpr hpos
  have h2 : Real.sqrt 2 ^ 2 = 2 := Real.sq_sqrt (by norm_num)
  have key : Real.sqrt (2 + Real.sqrt 2) =
      (1 + Real.sqrt 2) * Real.sqrt (2 - Real.sqrt 2) := by
    have hone : (0 : ℝ) ≤ 1 + Real.sqrt 2 := by positivity
    rw [← Real.sqrt_sq hone, ← Real.sqrt_mul (by positivity) (2 - Real.sqrt 2)]
    congr 1
    linear_combination Real.sqrt 2 * h2
  unfold camDist
  rw [tan_arg_eq, Real.tan_eq_sin_div_cos, Real.sin_pi_div_eight,
    Real.cos_pi_div_eight]
  rw [show (1.0 : ℝ) = 1 from by norm_num, one_div_div, key]
  field_simp

/-- The camera-distance scalar is positive. -/
lemma camDist_pos : 0 < camDist := by
  rw [camDist_eq]
  positivity

/-- Numeric approximation of the camera-distance scalar. -/
lemma camDist_approx : |camDist - 2.4142| < 1 / 1000 := by
  rw [camDist_eq, abs_lt]
  constructor <;> nlinarith [sqrt_two_gt, sqrt_two_lt]

/-- The initial camera's target differs from its position. -/
lemma initial_target_ne_position : initialCamera.target ≠ initialCamera.position := by
  intro heq
  have hx := congrArg Vector3.x heq
  simp only [initialCamera] at hx
  norm_num at hx

/-- The concrete target produced by the always-succeeding GPU model. -/
def sampleTarget : RenderTexture2D :=
  (LoadRenderTextureDepthTex testGpu 800 450).1

/-- C1: for positive width and height, when framebuffer allocation succeeds,
`LoadRenderTextureDepthTex` returns a target whose color and depth textures
both record exactly the requested width and height, the color texture in
8-bit-per-channel RGBA format with one mip level, the depth texture allocated
with the renderbuffer/stencil interleaving flag disabled and one mip level,
and the color texture is attached to the framebuffer's color-channel-0 slot
and the depth texture to its depth slot. -/
theorem create_success_populates_target (gpu : Gpu) (w h : Int)
    (hw : 0 < w) (hh : 0 < h) (hfb : 0 < gpu.loadFramebuffer w h) :
    ((LoadRenderTextureDepthTex gpu w h).1.texture.width = w ∧
     (LoadRenderTextureDepthTex gpu w h).1.texture.height = h ∧
     (LoadRenderTextureDepthTex gpu w h).1.texture.format =
       PIXELFORMAT_UNCOMPRESSED_R8G8B8A8 ∧
     (LoadRenderTextureDepthTex gpu w h).1.texture.mipmaps = 1) ∧
    ((LoadRenderTextureDepthTex gpu w h).1.depth.width = w ∧
     (LoadRenderTextureDepthTex gpu w h).1.depth.height = h ∧
     (LoadRenderTextureDepthTex gpu w h).1.depth.mipmaps = 1) ∧
    GpuEvent.loadTextureDepth w h false ∈ (LoadRenderTextureDepthTex gpu w h).2 ∧
    GpuEvent.framebufferAttach (LoadRenderTextureDepthTex gpu w h).1.id
      (LoadRenderTextureDepthTex gpu w h).1.texture.id
      RL_ATTACHMENT_COLOR_CHANNEL0 RL_ATTACHMENT_TEXTURE2D 0 ∈
      (LoadRenderTextureDepthTex gpu w h).2 ∧
    GpuEvent.framebufferAttach (LoadRenderTextureDepthTex gpu w h).1.id
      (LoadRenderTextureDepthTex gpu w h).1.depth.id
      RL_ATTACHMENT_DEPTH RL_ATTACHMENT_TEXTURE2D 0 ∈
      (LoadRenderTextureDepthTex gpu w h).2 := by
  simp [LoadRenderTextureDepthTex, hfb]

/-- Witness for C1 at width 800, height 450 on the always-succeeding GPU
model. -/
theorem create_success_populates_target_witness :
    (0 : Int) < 800 ∧ (0 : Int) < 450 ∧ 0 < testGpu.loadFramebuffer 800 450 ∧
    (LoadRenderTextureDepthTex testGpu 800 450).1.texture.width = 800 ∧
    (LoadRenderTextureDepthTex testGpu 800 450).1.depth.height = 450 :=
  ⟨by decide, by decide, by decide,
   (create_success_populates_target testGpu 800 450 (by decide) (by decide)
     (by decide)).1.1,
   (create_success_populates_target testGpu 800 450 (by decide) (by decide)
     (by decide)).2.1.2.1⟩

/-- C2: for any camera whose target differs from its position, the per-frame
looking vector equals normalize(target - position) scaled by camDist, and its
magnitude equals camDist. -/
theorem camDir_upload_magnitude (camera : Camera)
    (h : camera.target ≠ camera.position) :
    frameCamDir camera camDist =
      Vector3Scale (Vector3Normalize
        (Vector3Subtract camera.target camera.position)) camDist ∧
    Vector3Length (frameCamDir camera camDist) = camDist :=
  ⟨rfl, vector3Length_scale_normalize (vector3Subtract_ne_zero h)
    (le_of_lt camDist_pos)⟩

/-- Witness for C2 at the program's initial camera. -/
theorem camDir_upload_magnitude_witness :
    initialCamera.target ≠ initialCamera.position ∧
    Vector3Length (frameCamDir initialCamera camDist) = camDist :=
  ⟨initial_target_ne_position,
   (camDir_upload_magnitude initialCamera initial_target_ne_position).2⟩

/-- C3: the derived camera distance is the deterministic function
1/tan(fovy_radians/2) of the vertical field of view: the code's computation
agrees with the spec formula at every fovy, the program's camDist
instantiates it at fovy = 45, and camDist is within 1/1000 of 2.4142. -/
theorem camDist_deterministic :
    (∀ fovy : ℝ, camDistOf fovy = camDistSpec fovy) ∧
    camDist = camDistOf initialCamera.fovy ∧
    |camDist - 2.4142| < 1 / 1000 := by
  refine ⟨?_, rfl, camDist_approx⟩
  intro fovy
  unfold camDistOf camDistSpec
  rw [show fovy * 0.5 * DEG2RAD = fovy * DEG2RAD / 2 from by ring]
  norm_num

/-- C4: when framebuffer allocation fails (zero handle),
`LoadRenderTextureDepthTex` returns the all-zero target, emits exactly one
warning log and no other GPU call, and returns normally; the failure is
observable to the caller only through the zeroed result. -/
theorem create_failure_zeroed (gpu : Gpu) (w h : Int)
    (hfb : gpu.loadFramebuffer w h = 0) :
    (LoadRenderTextureDepthTex gpu w h).1 =
      { id := 0
        texture := { id := 0, width := 0, height := 0, mipmaps := 0, format := 0 }
        depth := { id := 0, width := 0, height := 0, mipmaps := 0, format := 0 } } ∧
    (LoadRenderTextureDepthTex gpu w h).2 = [GpuEvent.traceLog LogLevel.warning] := by
  simp [LoadRenderTextureDepthTex, hfb]

/-- Witness for C4 on the always-failing GPU model. -/
theorem create_failure_zeroed_witness :
    failGpu.loadFramebuffer 800 450 = 0 ∧
    (LoadRenderTextureDepthTex failGpu 800 450).2 =
      [GpuEvent.traceLog LogLevel.warning] :=
  ⟨by decide, (create_failure_zeroed failGpu 800 450 (by decide)).2⟩

/-- C5: `UnloadRenderTextureDepthTex` with a nonzero framebuffer handle
releases the color texture, then the depth texture, then the framebuffer, in
that order; with a zero handle it performs no release operation. -/
theorem unload_order (target : RenderTexture2D) :
    (0 < target.id →
      UnloadRenderTextureDepthTex target =
        [GpuEvent.unloadTexture target.texture.id,
         GpuEvent.unloadTexture target.depth.id,
         GpuEvent.unloadFramebuffer target.id]) ∧
    (target.id = 0 → UnloadRenderTextureDepthTex target = []) := by
  constructor
  · intro hpos
    simp [UnloadRenderTextureDepthTex, hpos]
  · intro hzero
    simp [UnloadRenderTextureDepthTex, hzero]

/-- Witness for C5 on the concrete target of the always-succeeding GPU
model. -/
theorem unload_order_witness :
    0 < sampleTarget.id ∧
    UnloadRenderTextureDepthTex sampleTarget =
      [GpuEvent.unloadTexture sampleTarget.texture.id,
       GpuEvent.unloadTexture sampleTarget.depth.id,
       GpuEvent.unloadFramebuffer sampleTarget.id] :=
  ⟨by decide, (unload_order sampleTarget).1 (by decide)⟩

/-- C6: every texture-attachment call emitted by `LoadRenderTextureDepthTex`
targets a nonzero framebuffer handle: the attach calls are reachable only
when framebuffer allocation succeeded. -/
theorem attach_only_on_valid_framebuffer (gpu : Gpu) (w h : Int)
    (fb texId attachType texType mipLevel : Nat)
    (hmem : GpuEvent.framebufferAttach fb texId attachType texType mipLevel ∈
      (LoadRenderTextureDepthTex gpu w h).2) :
    0 < fb := by
  by_cases hfb : 0 < gpu.loadFramebuffer w h
  · by_cases hc : gpu.framebufferComplete (gpu.loadFramebuffer w h)
    · simp [LoadRenderTextureDepthTex, hfb, hc] at hmem
      rcases hmem with ⟨h1, -⟩ | ⟨h1, -⟩ <;> (subst h1; exact hfb)
    · simp [LoadRenderTextureDepthTex, hfb, hc] at hmem
      rcases hmem with ⟨h1, -⟩ | ⟨h1, -⟩ <;> (subst h1; exact hfb)
  · simp [LoadRenderTextureDepthTex, hfb] at hmem

/-- Witness for C6: the color attachment recorded by the always-succeeding
GPU model targets the nonzero framebuffer handle 1. -/
theorem attach_only_on_valid_framebuffer_witness :
    (GpuEvent.framebufferAttach 1 2 RL_ATTACHMENT_COLOR_CHANNEL0
      RL_ATTACHMENT_TEXTURE2D 0 ∈ (LoadRenderTextureDepthTex testGpu 800 450).2) ∧
    0 < 1 :=
  ⟨by decide,
   attach_only_on_valid_framebuffer testGpu 800 450 1 2
     RL_ATTACHMENT_COLOR_CHANNEL0 RL_ATTACHMENT_TEXTURE2D 0 (by decide)⟩

/-- C7: with the camera initialized at position (0.5, 1.0, 1.5), target
(0, 0.5, 0) and fovy 45 degrees, and a camera update leaving it unchanged,
the first frame's uniform upload carries camPos = (0.5, 1.0, 1.5) and a
camDir whose magnitude is within 1/1000 of 2.4142 and which points from the
position toward the target. -/
theorem first_frame_uploads (loc : String → Nat) (upd : Camera → Camera)
    (hupd : upd initialCamera = initialCamera) :
    (frameStep upd (initMainState loc)).2.uploads.camPosVal = ⟨0.5, 1.0, 1.5⟩ ∧
    |Vector3Length (frameStep upd (initMainState loc)).2.uploads.camDirVal -
      2.4142| < 1 / 1000 ∧
    (∃ t : ℝ, 0 < t ∧
      (frameStep upd (initMainState loc)).2.uploads.camDirVal =
        Vector3Scale (Vector3Subtract initialCamera.target
          initialCamera.position) t) := by
  have hdir : (frameStep upd (initMainState loc)).2.uploads.camDirVal =
      frameCamDir initialCamera camDist := by
    simp [frameStep, initMainState, hupd]
  have hpos : (frameStep upd (initMainState loc)).2.uploads.camPosVal =
      initialCamera.position := by
    simp [frameStep, initMainState, hupd]
  have hne : Vector3Subtract initialCamera.target initialCamera.position ≠
      ⟨0, 0, 0⟩ := vector3Subtract_ne_zero initial_target_ne_position
  refine ⟨?_, ?_, ?_⟩
  · rw [hpos]
    rfl
  · rw [hdir]
    have hmag : Vector3Length (frameCamDir initialCamera camDist) = camDist :=
      vector3Length_scale_normalize hne (le_of_lt camDist_pos)
    rw [hmag]
    exact camDist_approx
  · rw [hdir]
    exact scale_normalize_eq_scale hne camDist_pos

/-- Witness for C7 with the identity camera update and the zero location
table. -/
theorem first_frame_uploads_witness :
    (id initialCamera = initialCamera) ∧
    ((frameStep id (initMainState fun _ => 0)).2.uploads.camPosVal =
      ⟨0.5, 1.0, 1.5⟩ ∧
    |Vector3Length (frameStep id (initMainState fun _ => 0)).2.uploads.camDirVal -
      2.4142| < 1 / 1000 ∧
    (∃ t : ℝ, 0 < t ∧
      (frameStep id (initMainState fun _ => 0)).2.uploads.camDirVal =
        Vector3Scale (Vector3Subtract initialCamera.target
          initialCamera.position) t)) :=
  ⟨rfl, first_frame_uploads (fun _ => 0) id rfl⟩

/-- C8: every frame's presentation blit uses a source rectangle whose width
equals the offscreen color texture's stored width and whose height is the
negation of its stored height — a vertical flip. -/
theorem blit_rect_flips_vertically (gpu : Gpu) (upd : Camera → Camera)
    (s : MainState) (hfb : 0 < gpu.loadFramebuffer screenWidth screenHeight) :
    (frameStep upd s).2.blitRect.width =
      (((LoadRenderTextureDepthTex gpu screenWidth screenHeight).1.texture.width : Int) : ℝ) ∧
    (frameStep upd s).2.blitRect.height =
      -(((LoadRenderTextureDepthTex gpu screenWidth screenHeight).1.texture.height : Int) : ℝ) := by
  simp [frameStep, LoadRenderTextureDepthTex, hfb]

/-- Witness for C8 on the always-succeeding GPU model with the identity
camera update. -/
theorem blit_rect_flips_vertically_witness :
    0 < testGpu.loadFramebuffer screenWidth screenHeight ∧
    ((frameStep id (initMainState fun _ => 0)).2.blitRect.width =
      (((LoadRenderTextureDepthTex testGpu screenWidth screenHeight).1.texture.width : Int) : ℝ) ∧
    (frameStep id (initMainState fun _ => 0)).2.blitRect.height =
      -(((LoadRenderTextureDepthTex testGpu screenWidth screenHeight).1.texture.height : Int) : ℝ)) :=
  ⟨by decide,
   blit_rect_flips_vertically testGpu id (initMainState fun _ => 0) (by decide)⟩

/-- C9: across any run of the frame loop from the state prepared before the
loop, the camera-distance scalar and the resolved uniform-location table are
left unchanged; only the camera component of the state evolves. -/
theorem loop_preserves_consts (loc : String → Nat)
    (upds : List (Camera → Camera)) :
    (runFrames upds (initMainState loc)).camDist = camDist ∧
    (runFrames upds (initMainState loc)).march_locs =
      { camPos := loc "camPos", camDir := loc "camDir",
        screenCenter := loc "screenCenter" } := by
  have h : ∀ (l : List (Camera → Camera)) (s : MainState),
      (runFrames l s).camDist = s.camDist ∧
      (runFrames l s).march_locs = s.march_locs := by
    intro l
    induction l with
    | nil => intro s; exact ⟨rfl, rfl⟩
    | cons u rest ih =>
        intro s
        have hr := ih (frameStep u s).1
        simpa [runFrames, frameStep] using hr
  exact h upds (initMainState loc)

/-- C10: the target returned by `LoadRenderTextureDepthTex` does not depend
on the framebuffer-completeness check: replacing the completeness predicate
leaves the returned value unchanged, so an attached-but-incomplete
framebuffer is indistinguishable from a complete one in the result. -/
theorem create_ignores_completeness (gpu : Gpu) (c : Nat → Bool) (w h : Int) :
    (LoadRenderTextureDepthTex { gpu with framebufferComplete := c } w h).1 =
    (LoadRenderTextureDepthTex gpu w h).1 := by
  by_cases hfb : 0 < gpu.loadFramebuffer w h <;>
    simp [LoadRenderTextureDepthTex, hfb]

end HybridRender
